import Mathlib

/-!
Verification of the VectorOps library (`src/Engine/include/math/VectorMath.hpp`,
namespace `openvox::math`) against its specification.

The vector container types `Vector2<T>`, `Vector3<T>`, `Vector4<T>` are external
collaborators of the library; here they are structures with the named components
the source accesses (`x`, `y`, `z`, `w`).  The scalar math collaborators
(`openvox::math::sqrt`, `fastInverseSqrt`, the per-component functions fed to the
`VEC_FCALL` macro) are likewise external; they appear as explicit function
parameters, so every definition below mirrors exactly the arithmetic written in
the header.
-/

namespace openvox

/-- The vector container `Vector2<T>`: two components named x, y. -/
structure Vector2 (T : Type) where
  x : T
  y : T
deriving DecidableEq, Repr

/-- The vector container `Vector3<T>`: three components named x, y, z. -/
structure Vector3 (T : Type) where
  x : T
  y : T
  z : T
deriving DecidableEq, Repr

/-- The vector container `Vector4<T>`: four components named x, y, z, w. -/
structure Vector4 (T : Type) where
  x : T
  y : T
  z : T
  w : T
deriving DecidableEq, Repr

/-- Component access by index, x = 0, y = 1. -/
def Vector2.comp {T : Type} (v : Vector2 T) : Fin 2 → T
  | 0 => v.x
  | 1 => v.y

/-- Component access by index, x = 0, y = 1, z = 2. -/
def Vector3.comp {T : Type} (v : Vector3 T) : Fin 3 → T
  | 0 => v.x
  | 1 => v.y
  | 2 => v.z

/-- Component access by index, x = 0, y = 1, z = 2, w = 3. -/
def Vector4.comp {T : Type} (v : Vector4 T) : Fin 4 → T
  | 0 => v.x
  | 1 => v.y
  | 2 => v.z
  | 3 => v.w

/-- Modelled from the spec: the vector collaborator's scalar broadcast divide
`v / s` (section 6 of the spec, "scalar broadcast multiply/divide"), used by
`normalize` in accurate mode. -/
def Vector2.divScalar {T : Type} [Div T] (v : Vector2 T) (s : T) : Vector2 T :=
  Vector2.mk (v.x / s) (v.y / s)

/-- Modelled from the spec: scalar broadcast divide for `Vector3<T>`. -/
def Vector3.divScalar {T : Type} [Div T] (v : Vector3 T) (s : T) : Vector3 T :=
  Vector3.mk (v.x / s) (v.y / s) (v.z / s)

/-- Modelled from the spec: scalar broadcast divide for `Vector4<T>`. -/
def Vector4.divScalar {T : Type} [Div T] (v : Vector4 T) (s : T) : Vector4 T :=
  Vector4.mk (v.x / s) (v.y / s) (v.z / s) (v.w / s)

/-- Modelled from the spec: the vector collaborator's scalar broadcast multiply
`v * s`, used by `normalize` in fast mode. -/
def Vector2.mulScalar {T : Type} [Mul T] (v : Vector2 T) (s : T) : Vector2 T :=
  Vector2.mk (v.x * s) (v.y * s)

/-- Modelled from the spec: scalar broadcast multiply for `Vector3<T>`. -/
def Vector3.mulScalar {T : Type} [Mul T] (v : Vector3 T) (s : T) : Vector3 T :=
  Vector3.mk (v.x * s) (v.y * s) (v.z * s)

/-- Modelled from the spec: scalar broadcast multiply for `Vector4<T>`. -/
def Vector4.mulScalar {T : Type} [Mul T] (v : Vector4 T) (s : T) : Vector4 T :=
  Vector4.mk (v.x * s) (v.y * s) (v.z * s) (v.w * s)

/-- Modelled from the spec: the vector collaborator's elementwise negation
(section 6, "elementwise arithmetic operators"), used to state
anti-commutativity of `cross`. -/
def Vector3.neg {T : Type} [Neg T] (v : Vector3 T) : Vector3 T :=
  Vector3.mk (-v.x) (-v.y) (-v.z)

/-- `dot` for `Vector2<T>` (VectorMath.hpp lines 18-22):
`v1.x * v2.x + v1.y * v2.y`. -/
def dot2 {T : Type} [Mul T] [Add T] (v1 v2 : Vector2 T) : T :=
  v1.x * v2.x + v1.y * v2.y

/-- `dot` for `Vector3<T>` (VectorMath.hpp lines 23-27):
`v1.x * v2.x + v1.y * v2.y + v1.z * v2.z`. -/
def dot3 {T : Type} [Mul T] [Add T] (v1 v2 : Vector3 T) : T :=
  v1.x * v2.x + v1.y * v2.y + v1.z * v2.z

/-- `dot` for `Vector4<T>` (VectorMath.hpp lines 28-32):
`v1.x * v2.x + v1.y * v2.y + v1.z * v2.z + v1.w * v2.w`. -/
def dot4 {T : Type} [Mul T] [Add T] (v1 v2 : Vector4 T) : T :=
  v1.x * v2.x + v1.y * v2.y + v1.z * v2.z + v1.w * v2.w

/-- `length` for `Vector2<T>` (VectorMath.hpp lines 35-38):
`sqrt(v.x * v.x + v.y * v.y)`, with the external scalar `openvox::math::sqrt`
passed as the parameter `sq`. -/
def length2 {T : Type} [Mul T] [Add T] (sq : T → T) (v : Vector2 T) : T :=
  sq (v.x * v.x + v.y * v.y)

/-- `length` for `Vector3<T>` (VectorMath.hpp lines 39-42). -/
def length3 {T : Type} [Mul T] [Add T] (sq : T → T) (v : Vector3 T) : T :=
  sq (v.x * v.x + v.y * v.y + v.z * v.z)

/-- `length` for `Vector4<T>` (VectorMath.hpp lines 43-46). -/
def length4 {T : Type} [Mul T] [Add T] (sq : T → T) (v : Vector4 T) : T :=
  sq (v.x * v.x + v.y * v.y + v.z * v.z + v.w * v.w)

/-- `lengthSquared` for `Vector2<T>` (VectorMath.hpp lines 49-52):
`v.x * v.x + v.y * v.y`. -/
def lengthSquared2 {T : Type} [Mul T] [Add T] (v : Vector2 T) : T :=
  v.x * v.x + v.y * v.y

/-- `lengthSquared` for `Vector3<T>` (VectorMath.hpp lines 53-56). -/
def lengthSquared3 {T : Type} [Mul T] [Add T] (v : Vector3 T) : T :=
  v.x * v.x + v.y * v.y + v.z * v.z

/-- `lengthSquared` for `Vector4<T>` (VectorMath.hpp lines 57-60). -/
def lengthSquared4 {T : Type} [Mul T] [Add T] (v : Vector4 T) : T :=
  v.x * v.x + v.y * v.y + v.z * v.z + v.w * v.w

/-- `cross` (VectorMath.hpp lines 63-69), defined only for `Vector3<T>`:
`Vector3<T>(v1.y * v2.z - v1.z * v2.y, v1.z * v2.x - v1.x * v2.z,
v1.x * v2.y - v1.y * v2.x)`. -/
def cross {T : Type} [Mul T] [Sub T] (v1 v2 : Vector3 T) : Vector3 T :=
  Vector3.mk (v1.y * v2.z - v1.z * v2.y)
             (v1.z * v2.x - v1.x * v2.z)
             (v1.x * v2.y - v1.y * v2.x)

/-- `normalize` for `Vector2<T>` in accurate mode, the default build
configuration (VectorMath.hpp line 77, the branch compiled when
`OPENVOX_MATH_FAST` is not defined): `v / openvox::math::length(v)`. -/
def normalize2 {T : Type} [Mul T] [Add T] [Div T] (sq : T → T) (v : Vector2 T) :
    Vector2 T :=
  v.divScalar (length2 sq v)

/-- `normalize` for `Vector3<T>` in accurate mode (VectorMath.hpp line 85). -/
def normalize3 {T : Type} [Mul T] [Add T] [Div T] (sq : T → T) (v : Vector3 T) :
    Vector3 T :=
  v.divScalar (length3 sq v)

/-- `normalize` for `Vector4<T>` in accurate mode (VectorMath.hpp line 93). -/
def normalize4 {T : Type} [Mul T] [Add T] [Div T] (sq : T → T) (v : Vector4 T) :
    Vector4 T :=
  v.divScalar (length4 sq v)

/-- `normalize` for `Vector2<T>` in fast mode, the branch compiled under
`OPENVOX_MATH_FAST` (VectorMath.hpp line 75):
`v * openvox::math::fastInverseSqrt(lengthSquared(v))`, with the external
`fastInverseSqrt` passed as the parameter `fis`. -/
def normalize2Fast {T : Type} [Mul T] [Add T] (fis : T → T) (v : Vector2 T) :
    Vector2 T :=
  v.mulScalar (fis (lengthSquared2 v))

/-- `normalize` for `Vector3<T>` in fast mode (VectorMath.hpp line 83). -/
def normalize3Fast {T : Type} [Mul T] [Add T] (fis : T → T) (v : Vector3 T) :
    Vector3 T :=
  v.mulScalar (fis (lengthSquared3 v))

/-- `normalize` for `Vector4<T>` in fast mode (VectorMath.hpp line 91). -/
def normalize4Fast {T : Type} [Mul T] [Add T] (fis : T → T) (v : Vector4 T) :
    Vector4 T :=
  v.mulScalar (fis (lengthSquared4 v))

/-- Expansion of the `VEC_FCALL` macro at arity 2 (VectorMath.hpp lines 98-102):
`Vector2<T>(func(v.x), func(v.y))`.  Each of the twenty generated functions
(`sin`, `cos`, `tan`, `acos`, `asin`, `atan`, `abs`, `floor`, `ceil`, `trunc`,
`round`, `fract`, `sign`, `radians`, `degrees`, `sqrt`, `exp`, `exp2`, `log`,
`log2`, lines 112-131) is this scheme applied to its external scalar `func`. -/
def vecFCall2 {T : Type} (func : T → T) (v : Vector2 T) : Vector2 T :=
  Vector2.mk (func v.x) (func v.y)

/-- Expansion of the `VEC_FCALL` macro at arity 3 (VectorMath.hpp lines 103-106):
`Vector3<T>(func(v.x), func(v.y), func(v.z))`. -/
def vecFCall3 {T : Type} (func : T → T) (v : Vector3 T) : Vector3 T :=
  Vector3.mk (func v.x) (func v.y) (func v.z)

/-- Expansion of the `VEC_FCALL` macro at arity 4 (VectorMath.hpp lines 107-110):
`Vector4<T>(func(v.x), func(v.y), func(v.z), func(v.w))`. -/
def vecFCall4 {T : Type} (func : T → T) (v : Vector4 T) : Vector4 T :=
  Vector4.mk (func v.x) (func v.y) (func v.z) (func v.w)

/-- Modelled from the spec: the external scalar collaborator
`openvox::math::clamp(x, minVal, maxVal)` is not under src/; the spec requires
it to "match standard single-scalar semantics", i.e. `min(max(x, lo), hi)`. -/
def scalarClamp {T : Type} [LinearOrder T] (x minVal maxVal : T) : T :=
  min (max x minVal) maxVal

/-- `clamp` for `Vector2<T>` (VectorMath.hpp lines 173-176): applies the scalar
clamp with the same `minVal`, `maxVal` to both components. -/
def clamp2 {T : Type} [LinearOrder T] (v : Vector2 T) (minVal maxVal : T) :
    Vector2 T :=
  Vector2.mk (scalarClamp v.x minVal maxVal) (scalarClamp v.y minVal maxVal)

/-- `clamp` for `Vector3<T>` (VectorMath.hpp lines 177-180). -/
def clamp3 {T : Type} [LinearOrder T] (v : Vector3 T) (minVal maxVal : T) :
    Vector3 T :=
  Vector3.mk (scalarClamp v.x minVal maxVal) (scalarClamp v.y minVal maxVal)
             (scalarClamp v.z minVal maxVal)

/-- `clamp` for `Vector4<T>` (VectorMath.hpp lines 181-184). -/
def clamp4 {T : Type} [LinearOrder T] (v : Vector4 T) (minVal maxVal : T) :
    Vector4 T :=
  Vector4.mk (scalarClamp v.x minVal maxVal) (scalarClamp v.y minVal maxVal)
             (scalarClamp v.z minVal maxVal) (scalarClamp v.w minVal maxVal)

/-!
Compile-time type-category enforcement.  A C++ component type is abstracted by
the one trait the header consults, `std::numeric_limits<T>::is_iec559`.
Instantiating a function template at such a type either compiles (`Except.ok`)
or fails to build (`Except.error`); the checks below record, per function, the
`static_assert` lines of VectorMath.hpp and (for the external scalar
collaborators) the requirement the spec states for them.
-/

/-- A C++ scalar component type, reduced to the only trait the header
consults: whether it is an IEC-559 (IEEE-754) floating-point type. -/
structure CppScalarType where
  iec559 : Bool
deriving DecidableEq, Repr

/-- A C++ `static_assert(cond, msg)`: compilation succeeds when `cond` holds
and fails to build with `msg` otherwise. -/
def staticAssert (cond : Bool) (msg : String) : Except String Unit :=
  if cond then Except.ok () else Except.error msg

/-- Instantiating `dot` at component type `T` (VectorMath.hpp lines 20, 25, 30):
every arity carries `static_assert(std::numeric_limits<T>::is_iec559, ...)`. -/
def dotInstantiate (T : CppScalarType) : Except String Unit :=
  staticAssert T.iec559 "dot only accepts floating-point inputs."

/-- Instantiating `cross` at component type `T` (VectorMath.hpp line 65). -/
def crossInstantiate (T : CppScalarType) : Except String Unit :=
  staticAssert T.iec559 "cross only accepts floating-point inputs."

/-- Modelled from the spec: the external scalar `openvox::math::sqrt` is not
under src/; per the spec, `length` "Requires floating-point T (inherited from
the square-root and dot requirement)" and such type-category violations are
"caught at compile time", so instantiating the square-root collaborator at a
non-floating-point type fails to build. -/
def sqrtInstantiate (T : CppScalarType) : Except String Unit :=
  staticAssert T.iec559 "sqrt requires a floating-point type."

/-- Modelled from the spec: the external `openvox::math::fastInverseSqrt` is
not under src/; per the spec, both normalize modes "require floating-point T",
so instantiating it at a non-floating-point type fails to build. -/
def fastInverseSqrtInstantiate (T : CppScalarType) : Except String Unit :=
  staticAssert T.iec559 "fastInverseSqrt requires a floating-point type."

/-- Instantiating `length` at component type `T`: the body (VectorMath.hpp
lines 35-46) has no `static_assert` of its own; it instantiates
`openvox::math::sqrt` at `T`. -/
def lengthInstantiate (T : CppScalarType) : Except String Unit :=
  sqrtInstantiate T

/-- Instantiating `normalize` at component type `T` in accurate mode, the
default build (VectorMath.hpp line 77): the body instantiates `length` at
`T`. -/
def normalizeInstantiate (T : CppScalarType) : Except String Unit :=
  lengthInstantiate T

/-- Instantiating `normalize` at component type `T` in fast mode
(VectorMath.hpp line 75): the body instantiates `lengthSquared` (no assert of
its own) and `fastInverseSqrt` at `T`. -/
def normalizeInstantiateFast (T : CppScalarType) : Except String Unit :=
  fastInverseSqrtInstantiate T

/-- C1: for every vector v of arity 2, 3, or 4, `length(v)` equals
`sqrt(lengthSquared(v))`: the value `length` returns is exactly the square-root
collaborator `sq` applied to the value `lengthSquared` returns on the same
input. -/
theorem C1_length_is_sqrt_of_lengthSquared {T : Type} [Mul T] [Add T]
    (sq : T → T) (v2 : Vector2 T) (v3 : Vector3 T) (v4 : Vector4 T) :
    length2 sq v2 = sq (lengthSquared2 v2) ∧
    length3 sq v3 = sq (lengthSquared3 v3) ∧
    length4 sq v4 = sq (lengthSquared4 v4) :=
  ⟨rfl, rfl, rfl⟩

/-- C2: for every pair of vectors of the same arity N in 2, 3, 4, `dot`
returns the sum over all N component indices i of `v1[i] * v2[i]`. -/
theorem C2_dot_is_sum_of_componentwise_products {T : Type} [AddCommMonoid T]
    [Mul T] (a1 a2 : Vector2 T) (b1 b2 : Vector3 T) (c1 c2 : Vector4 T) :
    dot2 a1 a2 = ∑ i, a1.comp i * a2.comp i ∧
    dot3 b1 b2 = ∑ i, b1.comp i * b2.comp i ∧
    dot4 c1 c2 = ∑ i, c1.comp i * c2.comp i := by
  refine ⟨?_, ?_, ?_⟩ <;>
    simp [dot2, dot3, dot4, Vector2.comp, Vector3.comp, Vector4.comp,
      Fin.sum_univ_two, Fin.sum_univ_three, Fin.sum_univ_four]

/-- C4: `cross` returns the vector
`(v1.y * v2.z - v1.z * v2.y, v1.z * v2.x - v1.x * v2.z, v1.x * v2.y - v1.y * v2.x)`;
in particular `cross(Vector3(1,0,0), Vector3(0,1,0)) = Vector3(0,0,1)`. -/
theorem C4_cross_determinant_formula {T : Type} [CommRing T]
    (v1 v2 : Vector3 T) :
    cross v1 v2 = Vector3.mk (v1.y * v2.z - v1.z * v2.y)
        (v1.z * v2.x - v1.x * v2.z) (v1.x * v2.y - v1.y * v2.x) ∧
    cross (Vector3.mk (1 : T) 0 0) (Vector3.mk 0 1 0) = Vector3.mk 0 0 1 := by
  refine ⟨rfl, ?_⟩
  simp [cross]

/-- C7: every function generated by the `VEC_FCALL` macro scheme applies its
scalar function to each component independently: `result[i] = scalarF(v[i])`
for every component index i, at every arity 2, 3, 4; no component of the
result depends on any other component of the input. -/
theorem C7_vecFCall_componentwise {T : Type} (func : T → T)
    (v2 : Vector2 T) (v3 : Vector3 T) (v4 : Vector4 T) :
    (∀ i, (vecFCall2 func v2).comp i = func (v2.comp i)) ∧
    (∀ i, (vecFCall3 func v3).comp i = func (v3.comp i)) ∧
    (∀ i, (vecFCall4 func v4).comp i = func (v4.comp i)) := by
  refine ⟨?_, ?_, ?_⟩ <;> intro i <;> fin_cases i <;> rfl

/-- C8: `cross` is anti-commutative: `cross(v1, v2)` equals the componentwise
negation of `cross(v2, v1)` for every pair of 3-component vectors. -/
theorem C8_cross_anticommutative {T : Type} [CommRing T] (v1 v2 : Vector3 T) :
    cross v1 v2 = Vector3.neg (cross v2 v1) := by
  simp only [cross, Vector3.neg, Vector3.mk.injEq]
  refine ⟨by ring, by ring, by ring⟩

/-- C10: the cross product is orthogonal to both inputs over exact arithmetic:
`dot(cross(v1, v2), v1) = 0` and `dot(cross(v1, v2), v2) = 0`. -/
theorem C10_cross_orthogonal_to_inputs {T : Type} [CommRing T]
    (v1 v2 : Vector3 T) :
    dot3 (cross v1 v2) v1 = 0 ∧ dot3 (cross v1 v2) v2 = 0 := by
  constructor <;> · simp only [dot3, cross]; ring

/-- C3: instantiating `length` or `normalize` (either build mode) at a
non-floating-point component type fails to build — a type-level constraint
fails before any value is computed, exactly as for `dot` and `cross` — so no
such call ever reaches runtime. -/
theorem C3_nonfloat_instantiation_rejected (T : CppScalarType)
    (h : T.iec559 = false) :
    lengthInstantiate T = Except.error "sqrt requires a floating-point type." ∧
    normalizeInstantiate T =
      Except.error "sqrt requires a floating-point type." ∧
    normalizeInstantiateFast T =
      Except.error "fastInverseSqrt requires a floating-point type." ∧
    dotInstantiate T =
      Except.error "dot only accepts floating-point inputs." ∧
    crossInstantiate T =
      Except.error "cross only accepts floating-point inputs." := by
  simp [lengthInstantiate, sqrtInstantiate, normalizeInstantiate,
    normalizeInstantiateFast, fastInverseSqrtInstantiate, dotInstantiate,
    crossInstantiate, staticAssert, h]

/-- Witness for C3 at the concrete non-floating-point type. -/
theorem C3_nonfloat_instantiation_rejected_witness :
    (CppScalarType.mk false).iec559 = false ∧
    (lengthInstantiate (CppScalarType.mk false) =
      Except.error "sqrt requires a floating-point type." ∧
    normalizeInstantiate (CppScalarType.mk false) =
      Except.error "sqrt requires a floating-point type." ∧
    normalizeInstantiateFast (CppScalarType.mk false) =
      Except.error "fastInverseSqrt requires a floating-point type." ∧
    dotInstantiate (CppScalarType.mk false) =
      Except.error "dot only accepts floating-point inputs." ∧
    crossInstantiate (CppScalarType.mk false) =
      Except.error "cross only accepts floating-point inputs.") :=
  ⟨rfl, C3_nonfloat_instantiation_rejected (CppScalarType.mk false) rfl⟩

/-- Scalar clamp stays within the bounds whenever the bounds are ordered. -/
lemma scalarClamp_mem {T : Type} [LinearOrder T] (x lo hi : T) (h : lo ≤ hi) :
    lo ≤ scalarClamp x lo hi ∧ scalarClamp x lo hi ≤ hi :=
  ⟨le_min (le_max_right x lo) h, min_le_right _ _⟩

/-- C6: whenever `lo ≤ hi`, every component of `clamp(v, lo, hi)` lies in
`[lo, hi]`, and the same two scalar bounds are applied to every component, at
every arity 2, 3, 4. -/
theorem C6_clamp_within_bounds {T : Type} [LinearOrder T] (lo hi : T)
    (h : lo ≤ hi) (v2 : Vector2 T) (v3 : Vector3 T) (v4 : Vector4 T) :
    (∀ i, lo ≤ (clamp2 v2 lo hi).comp i ∧ (clamp2 v2 lo hi).comp i ≤ hi ∧
      (clamp2 v2 lo hi).comp i = scalarClamp (v2.comp i) lo hi) ∧
    (∀ i, lo ≤ (clamp3 v3 lo hi).comp i ∧ (clamp3 v3 lo hi).comp i ≤ hi ∧
      (clamp3 v3 lo hi).comp i = scalarClamp (v3.comp i) lo hi) ∧
    (∀ i, lo ≤ (clamp4 v4 lo hi).comp i ∧ (clamp4 v4 lo hi).comp i ≤ hi ∧
      (clamp4 v4 lo hi).comp i = scalarClamp (v4.comp i) lo hi) := by
  refine ⟨?_, ?_, ?_⟩ <;> intro i <;> fin_cases i <;>
    exact ⟨(scalarClamp_mem _ _ _ h).1, (scalarClamp_mem _ _ _ h).2, rfl⟩

/-- Witness for C6 at concrete integer inputs, among them the spec scenario
`clamp(Vector2(-1, 5), 0, 3)`. -/
theorem C6_clamp_within_bounds_witness :
    ((0 : ℤ) ≤ 3) ∧
    ((∀ i, (0 : ℤ) ≤ (clamp2 (Vector2.mk (-1) 5) 0 3).comp i ∧
      (clamp2 (Vector2.mk (-1) 5) 0 3).comp i ≤ 3 ∧
      (clamp2 (Vector2.mk (-1) 5) 0 3).comp i =
        scalarClamp ((Vector2.mk (-1) 5).comp i) 0 3) ∧
    (∀ i, (0 : ℤ) ≤ (clamp3 (Vector3.mk (5 : ℤ) 7 9) 0 3).comp i ∧
      (clamp3 (Vector3.mk (5 : ℤ) 7 9) 0 3).comp i ≤ 3 ∧
      (clamp3 (Vector3.mk (5 : ℤ) 7 9) 0 3).comp i =
        scalarClamp ((Vector3.mk (5 : ℤ) 7 9).comp i) 0 3) ∧
    (∀ i, (0 : ℤ) ≤ (clamp4 (Vector4.mk (-2 : ℤ) 0 3 10) 0 3).comp i ∧
      (clamp4 (Vector4.mk (-2 : ℤ) 0 3 10) 0 3).comp i ≤ 3 ∧
      (clamp4 (Vector4.mk (-2 : ℤ) 0 3 10) 0 3).comp i =
        scalarClamp ((Vector4.mk (-2 : ℤ) 0 3 10).comp i) 0 3)) :=
  ⟨by decide, C6_clamp_within_bounds 0 3 (by decide) (Vector2.mk (-1) 5)
    (Vector3.mk (5 : ℤ) 7 9) (Vector4.mk (-2 : ℤ) 0 3 10)⟩

/-- C9: assuming `fastInverseSqrt` returns exactly the reciprocal of the
square root and arithmetic is exact, fast-mode normalize
(`v * fastInverseSqrt(lengthSquared(v))`) and accurate-mode normalize
(`v / length(v)`) return equal vectors for every vector of nonzero length, at
every arity 2, 3, 4. -/
theorem C9_fast_normalize_equals_accurate {T : Type} [Field T]
    (sq fis : T → T) (hfis : ∀ x, fis x = 1 / sq x)
    (v2 : Vector2 T) (v3 : Vector3 T) (v4 : Vector4 T)
    (h2 : length2 sq v2 ≠ 0) (h3 : length3 sq v3 ≠ 0)
    (h4 : length4 sq v4 ≠ 0) :
    normalize2Fast fis v2 = normalize2 sq v2 ∧
    normalize3Fast fis v3 = normalize3 sq v3 ∧
    normalize4Fast fis v4 = normalize4 sq v4 := by
  refine ⟨?_, ?_, ?_⟩ <;>
    simp only [normalize2Fast, normalize3Fast, normalize4Fast, normalize2,
      normalize3, normalize4, Vector2.mulScalar, Vector3.mulScalar,
      Vector4.mulScalar, Vector2.divScalar, Vector3.divScalar,
      Vector4.divScalar, length2, length3, length4, lengthSquared2,
      lengthSquared3, lengthSquared4, hfis, mul_one_div]

/-- Witness for C9 over the exact field ℚ, with the square-root collaborator
`id` and `fastInverseSqrt` its exact reciprocal. -/
theorem C9_fast_normalize_equals_accurate_witness :
    (length2 id (Vector2.mk (3 : ℚ) 4) ≠ 0 ∧
     length3 id (Vector3.mk (1 : ℚ) 2 2) ≠ 0 ∧
     length4 id (Vector4.mk (1 : ℚ) 1 1 1) ≠ 0) ∧
    (normalize2Fast (fun y : ℚ => 1 / y) (Vector2.mk (3 : ℚ) 4) =
      normalize2 id (Vector2.mk (3 : ℚ) 4) ∧
     normalize3Fast (fun y : ℚ => 1 / y) (Vector3.mk (1 : ℚ) 2 2) =
      normalize3 id (Vector3.mk (1 : ℚ) 2 2) ∧
     normalize4Fast (fun y : ℚ => 1 / y) (Vector4.mk (1 : ℚ) 1 1 1) =
      normalize4 id (Vector4.mk (1 : ℚ) 1 1 1)) :=
  ⟨⟨by norm_num [length2], by norm_num [length3], by norm_num [length4]⟩,
   C9_fast_normalize_equals_accurate id (fun y : ℚ => 1 / y) (fun x => rfl)
     (Vector2.mk 3 4) (Vector3.mk 1 2 2) (Vector4.mk 1 1 1 1)
     (by norm_num [length2]) (by norm_num [length3]) (by norm_num [length4])⟩

/-- C5: in accurate mode over exact real arithmetic, normalizing a non-zero
vector yields a vector of length exactly 1, at every arity 2, 3, 4. -/
theorem C5_normalize_accurate_unit_length (v2 : Vector2 ℝ) (v3 : Vector3 ℝ)
    (v4 : Vector4 ℝ) (h2 : v2 ≠ Vector2.mk 0 0) (h3 : v3 ≠ Vector3.mk 0 0 0)
    (h4 : v4 ≠ Vector4.mk 0 0 0 0) :
    length2 Real.sqrt (normalize2 Real.sqrt v2) = 1 ∧
    length3 Real.sqrt (normalize3 Real.sqrt v3) = 1 ∧
    length4 Real.sqrt (normalize4 Real.sqrt v4) = 1 := by
  obtain ⟨a, b⟩ := v2
  obtain ⟨c, d, e⟩ := v3
  obtain ⟨p, q, r, s⟩ := v4
  refine ⟨?_, ?_, ?_⟩
  · have hne : a ≠ 0 ∨ b ≠ 0 := by
      by_contra hc
      push_neg at hc
      exact h2 (by rw [hc.1, hc.2])
    have hS : 0 < a * a + b * b := by
      rcases hne with h | h
      · nlinarith [mul_self_nonneg b, mul_self_pos.mpr h]
      · nlinarith [mul_self_nonneg a, mul_self_pos.mpr h]
    simp only [length2, normalize2, Vector2.divScalar]
    rw [div_mul_div_comm, div_mul_div_comm, div_add_div_same,
      Real.mul_self_sqrt hS.le, div_self (ne_of_gt hS), Real.sqrt_one]
  · have hne : c ≠ 0 ∨ d ≠ 0 ∨ e ≠ 0 := by
      by_contra hc
      push_neg at hc
      exact h3 (by rw [hc.1, hc.2.1, hc.2.2])
    have hS : 0 < c * c + d * d + e * e := by
      rcases hne with h | h | h
      · nlinarith [mul_self_nonneg d, mul_self_nonneg e, mul_self_pos.mpr h]
      · nlinarith [mul_self_nonneg c, mul_self_nonneg e, mul_self_pos.mpr h]
      · nlinarith [mul_self_nonneg c, mul_self_nonneg d, mul_self_pos.mpr h]
    simp only [length3, normalize3, Vector3.divScalar]
    rw [div_mul_div_comm, div_mul_div_comm, div_mul_div_comm,
      div_add_div_same, div_add_div_same,
      Real.mul_self_sqrt hS.le, div_self (ne_of_gt hS), Real.sqrt_one]
  · have hne : p ≠ 0 ∨ q ≠ 0 ∨ r ≠ 0 ∨ s ≠ 0 := by
      by_contra hc
      push_neg at hc
      exact h4 (by rw [hc.1, hc.2.1, hc.2.2.1, hc.2.2.2])
    have hS : 0 < p * p + q * q + r * r + s * s := by
      rcases hne with h | h | h | h
      · nlinarith [mul_self_nonneg q, mul_self_nonneg r, mul_self_nonneg s,
          mul_self_pos.mpr h]
      · nlinarith [mul_self_nonneg p, mul_self_nonneg r, mul_self_nonneg s,
          mul_self_pos.mpr h]
      · nlinarith [mul_self_nonneg p, mul_self_nonneg q, mul_self_nonneg s,
          mul_self_pos.mpr h]
      · nlinarith [mul_self_nonneg p, mul_self_nonneg q, mul_self_nonneg r,
          mul_self_pos.mpr h]
    simp only [length4, normalize4, Vector4.divScalar]
    rw [div_mul_div_comm, div_mul_div_comm, div_mul_div_comm,
      div_mul_div_comm, div_add_div_same, div_add_div_same, div_add_div_same,
      Real.mul_self_sqrt hS.le, div_self (ne_of_gt hS), Real.sqrt_one]

/-- Witness for C5 at concrete non-zero real vectors, among them the spec
scenario vector `Vector2(3, 4)` of length 5. -/
theorem C5_normalize_accurate_unit_length_witness :
    (Vector2.mk (3 : ℝ) 4 ≠ Vector2.mk 0 0 ∧
     Vector3.mk (1 : ℝ) 2 2 ≠ Vector3.mk 0 0 0 ∧
     Vector4.mk (1 : ℝ) 1 1 1 ≠ Vector4.mk 0 0 0 0) ∧
    (length2 Real.sqrt (normalize2 Real.sqrt (Vector2.mk (3 : ℝ) 4)) = 1 ∧
     length3 Real.sqrt (normalize3 Real.sqrt (Vector3.mk (1 : ℝ) 2 2)) = 1 ∧
     length4 Real.sqrt (normalize4 Real.sqrt (Vector4.mk (1 : ℝ) 1 1 1)) = 1) :=
  ⟨⟨by norm_num [Vector2.mk.injEq], by norm_num [Vector3.mk.injEq],
    by norm_num [Vector4.mk.injEq]⟩,
   C5_normalize_accurate_unit_length (Vector2.mk 3 4) (Vector3.mk 1 2 2)
     (Vector4.mk 1 1 1 1) (by norm_num [Vector2.mk.injEq])
     (by norm_num [Vector3.mk.injEq]) (by norm_num [Vector4.mk.injEq])⟩

end openvox
